import Mathlib

/-!
Verification development for the disaster-alert analytics pipeline
(backend ingestion plus MCP analytics services).

Shallow embedding conventions:
* Coordinates and scores are exact rationals (`ℚ`).  The source compares
  Euclidean distances `((dx)**2 + (dy)**2)**0.5` against a bound `r`; both
  sides are nonnegative, so we embed the comparison as `dx^2 + dy^2 < r^2`
  (respectively `≤ r^2`), avoiding square roots.
* JSON alert dictionaries become structures holding the fields the analytics
  read (`severity`, `lat`, `lon`, `created_at`); `dict.get` with a default is
  modelled by the field being total.
* `created_at` strings are modelled by an optional parsed timestamp: an
  absolute UTC time in days (`time : ℚ`), whose calendar date is `⌊time⌋`.
  `none` stands for a string `datetime.fromisoformat` rejects.
* Fallible code returns `Except`/`Option`; a bare `try/except` handler that
  logs and returns `None` becomes a `match` producing `none`.
-/

/-- Parsed `created_at` timestamp: absolute UTC time measured in days.
The UTC calendar date used for daily bucketing is `Rat.floor time`. -/
structure Timestamp where
  time : ℚ
deriving DecidableEq, Repr

/-- UTC calendar date of a timestamp, as used by `.date()` in the source. -/
def Timestamp.date (t : Timestamp) : ℤ :=
  Rat.floor t.time

/-- Canonical alert dictionary as consumed by the MCP analytics
(`severity`, `lat`, `lon`, `created_at`); other JSON fields are not read by
the functions verified here.  `created_at = none` models a string that
`datetime.fromisoformat` fails to parse. -/
structure Alert where
  severity : ℤ
  lat : ℚ
  lon : ℚ
  created_at : Option Timestamp
deriving DecidableEq, Repr

/-- Squared Euclidean distance in degree space, the comparison kernel of
`calculate_distance` in `mcp/app/main.py` (the source takes the square root;
we compare squares, which is equivalent for nonnegative bounds). -/
def dist2 (p q : ℚ × ℚ) : ℚ :=
  (p.1 - q.1) ^ 2 + (p.2 - q.2) ^ 2

/-- Position of an alert in degree space. -/
def Alert.pos (a : Alert) : ℚ × ℚ :=
  (a.lat, a.lon)

/-- Squared clustering radius: the source tests `distance < 0.01`, so the
squared form is `dist2 < 0.0001`. -/
def radius2 : ℚ :=
  1 / 10000

/-- Geographic cluster: a centroid and the member alerts in assignment
order, as built by `analyze_location_clusters`. -/
structure Cluster where
  center : ℚ × ℚ
  alerts : List Alert
deriving DecidableEq, Repr

/-- Arithmetic mean of the member coordinates, as recomputed on assignment
in `analyze_location_clusters` (`avg_lat`, `avg_lon`). -/
def centroid (ms : List Alert) : ℚ × ℚ :=
  ((ms.map Alert.lat).sum / ms.length, (ms.map Alert.lon).sum / ms.length)

/-- One step of the greedy clustering loop in `analyze_location_clusters`
(`mcp/app/main.py`, `mcp/app/advanced_mcp.py`, `mcp/app/decision_support.py`):
walk the clusters in order, append the alert to the first cluster whose
current center lies within the radius and recompute that center as the mean
of the members; otherwise append a new singleton cluster at the end. -/
def insertAlert (a : Alert) : List Cluster → List Cluster
  | [] => [⟨a.pos, [a]⟩]
  | c :: rest =>
    if dist2 c.center a.pos < radius2 then
      ⟨centroid (c.alerts ++ [a]), c.alerts ++ [a]⟩ :: rest
    else
      c :: insertAlert a rest

/-- Internal cluster list after the single pass over the snapshot
(before the `count > 1` output filter). -/
def cluster_state (alerts : List Alert) : List Cluster :=
  alerts.foldl (fun cs a => insertAlert a cs) []

/-- Centroid-updating clustering of `mcp/app/main.py` (also
`advanced_mcp.py` and `decision_support.py`): greedy single pass, then keep
only clusters with at least two members. -/
def analyze_location_clusters (alerts : List Alert) : List Cluster :=
  (cluster_state alerts).filter (fun c => decide (1 < c.alerts.length))

/-- One step of the simplified clustering loop in
`mcp/app/recommendation_engine.py`: identical search, but the cluster
center is never recomputed after a member is appended. -/
def insertAlertSimple (a : Alert) : List Cluster → List Cluster
  | [] => [⟨a.pos, [a]⟩]
  | c :: rest =>
    if dist2 c.center a.pos < radius2 then
      ⟨c.center, c.alerts ++ [a]⟩ :: rest
    else
      c :: insertAlertSimple a rest

/-- Internal cluster list of the simplified pass (before the output
filter). -/
def cluster_state_simple (alerts : List Alert) : List Cluster :=
  alerts.foldl (fun cs a => insertAlertSimple a cs) []

/-- Simplified clustering of `mcp/app/recommendation_engine.py`:
same greedy pass but without centroid updates, then the `> 1` filter. -/
def analyze_location_clusters_simple (alerts : List Alert) : List Cluster :=
  (cluster_state_simple alerts).filter (fun c => decide (1 < c.alerts.length))

/-- Result dictionary of the trend analyzers: the `trend` string and the
`increasing` flag (reading a missing `increasing` key with `.get` yields a
falsy value, modelled as `false`). -/
structure TrendDict where
  trend : String
  increasing : Bool
deriving DecidableEq, Repr

/-- Calendar dates of the alerts whose `created_at` parses, in snapshot
order; unparseable timestamps are skipped (`except: continue`). -/
def parsedDates (alerts : List Alert) : List ℤ :=
  alerts.filterMap (fun a => a.created_at.map Timestamp.date)

/-- Last `n` elements of a list, modelling the Python slice `l[-n:]`. -/
def takeLast (n : ℕ) (l : List α) : List α :=
  l.drop (l.length - n)

/-- Daily-bucket trend analyzer of `mcp/app/main.py` (there instantiated
with window 3): empty snapshot reports `stable`; group the alerts by UTC
date skipping unparseable timestamps (that file's loop has
`except: continue`), sort the distinct dates, keep the most recent `w`;
fewer than two dates reports `insufficient_data`; otherwise compare the
latest daily count against the earliest. -/
def analyze_trends_window (w : ℕ) (alerts : List Alert) : TrendDict :=
  if alerts.isEmpty then ⟨"stable", false⟩
  else
    let dates := parsedDates alerts
    let recentDates := takeLast w (List.insertionSort (· ≤ ·) dates.dedup)
    if recentDates.length < 2 then ⟨"insufficient_data", false⟩
    else
      let recentCounts := recentDates.map (fun d => dates.count d)
      if recentCounts.headD 0 < recentCounts.getLastD 0 then ⟨"increasing", true⟩
      else ⟨"decreasing", false⟩

/-- Trend analyzer of `mcp/app/main.py` (last 3 distinct dates). -/
def analyze_trends (alerts : List Alert) : TrendDict :=
  analyze_trends_window 3 alerts

/-- Parse every `created_at` of a snapshot, failing on the first
unparseable one — the semantics of a Python loop or comprehension that
calls `datetime.fromisoformat` on each element with no exception
handler. -/
def parseTimestamps : List Alert → Option (List Timestamp)
  | [] => some []
  | a :: t =>
    match a.created_at, parseTimestamps t with
    | some x, some xs => some (x :: xs)
    | _, _ => none

/-- Trend analyzer of `mcp/app/advanced_mcp.py` (last 7 distinct dates).
Unlike the `main.py` copy, its date loop has no `try/except`, so one
unparseable `created_at` raises and propagates (`Except.error`); the
daily buckets are otherwise computed the same way. -/
def analyze_trends_advanced (alerts : List Alert) : Except Unit TrendDict :=
  if alerts.isEmpty then Except.ok ⟨"stable", false⟩
  else
    match parseTimestamps alerts with
    | none => Except.error ()
    | some ts =>
      let dates := ts.map Timestamp.date
      let recentDates := takeLast 7 (List.insertionSort (· ≤ ·) dates.dedup)
      if recentDates.length < 2 then Except.ok ⟨"insufficient_data", false⟩
      else
        let recentCounts := recentDates.map (fun d => dates.count d)
        if recentCounts.headD 0 < recentCounts.getLastD 0 then
          Except.ok ⟨"increasing", true⟩
        else Except.ok ⟨"decreasing", false⟩

/-- Simplified trend analyzer of `mcp/app/recommendation_engine.py`.
`now` is the current UTC time in days (`datetime.utcnow()`); the 24-hour
cutoff is `now - 1`.  The list comprehension parses every `created_at`
without a handler, so one unparseable timestamp raises (`Except.error`).
Fewer than two alerts reports `stable` with no `increasing` key. -/
def analyze_trends_simple (now : ℚ) (alerts : List Alert) :
    Except Unit TrendDict :=
  if alerts.length < 2 then Except.ok ⟨"stable", false⟩
  else
    match parseTimestamps alerts with
    | none => Except.error ()
    | some ts =>
      let recent := ts.filter (fun t => decide (now - 1 < t.time))
      let inc := decide ((alerts.length : ℚ) * (3 / 10) < recent.length)
      Except.ok ⟨if inc then "increasing" else "stable", inc⟩

/-- Categorical risk level; `advanced_mcp.py` spells the same four levels
BAJO/MEDIO/ALTO/CRÍTICO. -/
inductive RiskLevel
  | LOW
  | MEDIUM
  | HIGH
  | CRITICAL
deriving DecidableEq, Repr

/-- Position of a level in the order LOW < MEDIUM < HIGH < CRITICAL. -/
def RiskLevel.rank : RiskLevel → ℕ
  | .LOW => 0
  | .MEDIUM => 1
  | .HIGH => 2
  | .CRITICAL => 3

/-- Risk assessment record returned by the `/mcp/analysis/risk-assessment`
endpoints. -/
structure RiskAssessmentR where
  risk_level : RiskLevel
  confidence : ℚ
  factors : List String
  recommendations : List String
deriving DecidableEq, Repr

/-- Composite risk score of the risk-assessment endpoints:
`len(risk_factors) * 0.5 + len(high_severity) * 0.3`. -/
def risk_score (nFactors nHigh : ℕ) : ℚ :=
  (nFactors : ℚ) * (1 / 2) + (nHigh : ℚ) * (3 / 10)

/-- Level thresholds of the risk-assessment endpoints:
`score >= 2` is HIGH, `score >= 1` is MEDIUM, otherwise LOW. -/
def risk_level_of_score (s : ℚ) : RiskLevel :=
  if 2 ≤ s then .HIGH else if 1 ≤ s then .MEDIUM else .LOW

/-- External alert entry as produced by the source adapters in
`backend/app/external_data.py`. -/
structure RawAlert where
  title : String
  description : String
  severity : ℤ
  lat : ℚ
  lon : ℚ
  source : String
deriving DecidableEq, Repr

/-- Factor strings collected by `risk_assessment` in
`mcp/app/advanced_mcp.py`, in source order: high-severity count,
geographic concentration, external alerts, increasing trend. -/
def risk_factors_advanced (nHigh nClusters nExternal : ℕ) (increasing : Bool) :
    List String :=
  (if 0 < nHigh then [toString nHigh ++ " alertas de alta severidad activas"] else []) ++
  (if 0 < nClusters then ["Concentración de alertas en " ++ toString nClusters ++ " zonas"] else []) ++
  (if 0 < nExternal then [toString nExternal ++ " alertas externas detectadas"] else []) ++
  (if increasing then ["Tendencia creciente en número de alertas"] else [])

/-- Recommendation strings collected alongside the factors in
`risk_assessment` of `mcp/app/advanced_mcp.py`. -/
def risk_recommendations_advanced (nHigh nClusters nExternal : ℕ)
    (increasing : Bool) : List String :=
  (if 0 < nHigh then ["Monitorear continuamente las alertas de alta severidad"] else []) ++
  (if 0 < nClusters then ["Evaluar recursos en zonas de alta concentración"] else []) ++
  (if 0 < nExternal then ["Integrar alertas externas al sistema de monitoreo"] else []) ++
  (if increasing then ["Aumentar capacidad de respuesta"] else [])

/-- Risk scorer of `mcp/app/advanced_mcp.py` (`/mcp/analysis/risk-assessment`):
four candidate factors, composite score, thresholds, confidence
`min(score / 3, 1)`.  The endpoint has no exception handler, so a failure
of its trend analysis (an unparseable timestamp) propagates. -/
def risk_assessment_advanced (alerts : List Alert)
    (external_alerts : List RawAlert) : Except Unit RiskAssessmentR := do
  let high := alerts.filter (fun a => decide (3 ≤ a.severity))
  let clusters := analyze_location_clusters alerts
  let trend ← analyze_trends_advanced alerts
  let factors :=
    risk_factors_advanced high.length clusters.length external_alerts.length trend.increasing
  let recs :=
    risk_recommendations_advanced high.length clusters.length external_alerts.length trend.increasing
  let score := risk_score factors.length high.length
  pure ⟨risk_level_of_score score, min (score / 3) 1, factors, recs⟩

/-- Factor strings collected by `risk_assessment` in `mcp/app/main.py`
(three candidate factors; no external-alert factor). -/
def risk_factors_main (nHigh nClusters : ℕ) (increasing : Bool) : List String :=
  (if 0 < nHigh then [toString nHigh ++ " alertas de alta severidad activas"] else []) ++
  (if 0 < nClusters then ["Concentración en " ++ toString nClusters ++ " zonas de riesgo"] else []) ++
  (if increasing then ["Tendencia creciente en número de alertas"] else [])

/-- Recommendation strings collected by `risk_assessment` in
`mcp/app/main.py`. -/
def risk_recommendations_main (nHigh nClusters : ℕ) (increasing : Bool) :
    List String :=
  (if 0 < nHigh then ["Monitorear continuamente alertas críticas"] else []) ++
  (if 0 < nClusters then ["Optimizar recursos en zonas críticas"] else []) ++
  (if increasing then ["Preparar capacidad de respuesta adicional"] else [])

/-- Risk scorer of `mcp/app/main.py` (`/mcp/analysis/risk-assessment`). -/
def risk_assessment_main (alerts : List Alert) : RiskAssessmentR :=
  let high := alerts.filter (fun a => decide (3 ≤ a.severity))
  let clusters := analyze_location_clusters alerts
  let trend := analyze_trends alerts
  let factors := risk_factors_main high.length clusters.length trend.increasing
  let recs := risk_recommendations_main high.length clusters.length trend.increasing
  let score := risk_score factors.length high.length
  ⟨risk_level_of_score score, min (score / 3) 1, factors, recs⟩

/-- Dashboard risk level of `mcp/app/main.py` (`calculate_risk_level`):
`score = high * 0.6 + recent * 0.4`, thresholds `> 5`, `> 3`, `> 1`. -/
def calculate_risk_level (nHigh nRecent : ℕ) : RiskLevel :=
  let score : ℚ := (nHigh : ℚ) * (3 / 5) + (nRecent : ℚ) * (2 / 5)
  if 5 < score then .CRITICAL
  else if 3 < score then .HIGH
  else if 1 < score then .MEDIUM
  else .LOW

/-- Requester location (`{lat, lon}` dictionary). -/
structure Location where
  lat : ℚ
  lon : ℚ
deriving DecidableEq, Repr

/-- Shelter record as read by the recommendation generators
(`capacity` read with `.get('capacity', 0)`). -/
structure Shelter where
  lat : ℚ
  lon : ℚ
  capacity : ℕ
deriving DecidableEq, Repr

/-- Nearby-alert filter (`get_nearby_alerts`): empty when no location was
supplied, otherwise the alerts whose distance to the location is at most
`max_distance` (compared in squared form). -/
def get_nearby_alerts (alerts : List Alert) (location : Option Location)
    (max_distance : ℚ) : List Alert :=
  match location with
  | none => []
  | some loc =>
    alerts.filter (fun a => decide (dist2 a.pos (loc.lat, loc.lon) ≤ max_distance ^ 2))

/-- Nearby-shelter filter (`get_nearby_shelters`). -/
def get_nearby_shelters (shelters : List Shelter) (location : Option Location)
    (max_distance : ℚ) : List Shelter :=
  match location with
  | none => []
  | some loc =>
    shelters.filter (fun s => decide (dist2 (s.lat, s.lon) (loc.lat, loc.lon) ≤ max_distance ^ 2))

/-- One recommendation item (`{type, title, description, actions}`). -/
structure RecItem where
  rtype : String
  title : String
  description : String
  actions : List String
deriving DecidableEq, Repr

/-- Response of the personalized-recommendation endpoints. -/
structure RecommendationResponse where
  recommendations : List RecItem
  priority : String
  validity_period : String
deriving DecidableEq, Repr

/-- First-responder generator of `mcp/app/recommendation_engine.py`:
alerts within 0.02° of the requester, an `immediate_action` item when a
nearby alert has severity at least 3, an `assessment` item when any alert
is nearby, and always a standing `safety` item; priority HIGH exactly when
a high-severity nearby alert exists. -/
def generate_responder_recommendations (alerts : List Alert)
    (location : Option Location) : RecommendationResponse :=
  let nearby := get_nearby_alerts alerts location (1 / 50)
  let high := nearby.filter (fun a => decide (3 ≤ a.severity))
  let recs :=
    (if high.isEmpty then [] else
      [⟨"immediate_action", "Atender alertas de alta prioridad",
        toString high.length ++ " alertas críticas en tu área inmediata",
        ["Desplegar equipo", "Reportar situación", "Solicitar apoyo si es necesario"]⟩]) ++
    (if nearby.isEmpty then [] else
      [⟨"assessment", "Evaluar situación general",
        "Total de " ++ toString nearby.length ++ " alertas en zona de cobertura",
        ["Priorizar por severidad", "Coordinar con otros equipos", "Reportar avances"]⟩]) ++
    [⟨"safety", "Protocolos de seguridad",
      "Mantener protocolos de seguridad personal durante intervenciones",
      ["Equipo de protección completo", "Comunicación constante", "Evaluar riesgos ambientales"]⟩]
  ⟨recs, if high.isEmpty then "MEDIUM" else "HIGH", "1h"⟩

/-- First-responder generator of `mcp/app/main.py`: same shape but the
nearby filter uses the default radius 0.01 of `get_nearby_alerts`, and the
standing item is a `preparedness` item. -/
def generate_responder_recommendations_main (alerts : List Alert)
    (location : Option Location) : RecommendationResponse :=
  let nearby := get_nearby_alerts alerts location (1 / 100)
  let high := nearby.filter (fun a => decide (3 ≤ a.severity))
  let recs :=
    (if high.isEmpty then [] else
      [⟨"immediate_action", "Atender alertas críticas",
        toString high.length ++ " alertas de alta prioridad en tu área",
        ["Desplegar equipo", "Reportar situación", "Solicitar apoyo"]⟩]) ++
    [⟨"preparedness", "Mantenerse preparado",
      "Equipo listo para respuesta inmediata",
      ["Verificar equipamiento", "Monitorear comunicaciones", "Coordinar con base"]⟩]
  ⟨recs, if high.isEmpty then "MEDIUM" else "HIGH", "1h"⟩

/-- Coordinator generator of `mcp/app/recommendation_engine.py`: items for
high-severity alerts, external alerts, and more than one geographic
cluster (via the simplified clustering of the same file); no fallback
item. -/
def generate_coordinator_recommendations (internal_alerts : List Alert)
    (external_alerts : List RawAlert) : RecommendationResponse :=
  let nHigh := (internal_alerts.filter (fun a => decide (3 ≤ a.severity))).length
  let clusters := analyze_location_clusters_simple internal_alerts
  let recs :=
    (if 0 < nHigh then
      [⟨"resource_management", "Gestionar recursos críticos",
        toString nHigh ++ " alertas de alta severidad requieren atención prioritaria",
        ["Movilizar equipos especializados", "Coordinar con autoridades", "Actualizar planes de contingencia"]⟩]
     else []) ++
    (if external_alerts.isEmpty then [] else
      [⟨"integration", "Integrar alertas externas",
        toString external_alerts.length ++ " alertas externas detectadas que pueden afectar operaciones",
        ["Evaluar impacto local", "Actualizar planes de respuesta", "Comunicar a equipos relevantes"]⟩]) ++
    (if 1 < clusters.length then
      [⟨"strategic", "Optimizar distribución de recursos",
        "Alertas concentradas en " ++ toString clusters.length ++ " zonas geográficas",
        ["Asignar equipos por zona", "Establecer centros de operaciones locales", "Optimizar rutas de respuesta"]⟩]
     else [])
  ⟨recs, if 0 < nHigh then "HIGH" else "MEDIUM", "2h"⟩

/-- Coordinator generator of `mcp/app/main.py`: items for high-severity
alerts and for a nonempty cluster list (centroid-updating clustering of
the same file); no fallback item. -/
def generate_coordinator_recommendations_main (alerts : List Alert) :
    RecommendationResponse :=
  let nHigh := (alerts.filter (fun a => decide (3 ≤ a.severity))).length
  let clusters := analyze_location_clusters alerts
  let recs :=
    (if 0 < nHigh then
      [⟨"resource_management", "Gestionar recursos críticos",
        toString nHigh ++ " alertas de alta severidad requieren atención",
        ["Priorizar recursos", "Coordinar equipos", "Actualizar planes"]⟩]
     else []) ++
    (if clusters.isEmpty then [] else
      [⟨"strategic", "Optimizar distribución",
        "Alertas concentradas en " ++ toString clusters.length ++ " zonas",
        ["Asignar equipos por zona", "Establecer centros locales", "Optimizar rutas"]⟩])
  ⟨recs, if 0 < nHigh then "HIGH" else "MEDIUM", "2h"⟩

/-- Civil-protection generator of `mcp/app/recommendation_engine.py`:
a capacity item when the count of severity-2-or-higher alerts exceeds half
the total shelter capacity, a preparation item when the simplified trend is
increasing; no fallback item.  The trend call parses timestamps without a
handler, so its failure propagates. -/
def generate_civil_protection_recommendations (now : ℚ) (alerts : List Alert)
    (shelters : List Shelter) : Except Unit RecommendationResponse := do
  let capacity := (shelters.map Shelter.capacity).sum
  let nActive := (alerts.filter (fun a => decide (2 ≤ a.severity))).length
  let capItems :=
    if (capacity : ℚ) * (1 / 2) < (nActive : ℚ) then
      [(⟨"capacity", "Ampliar capacidad de refugios",
        "Alerta: Capacidad de refugios (" ++ toString capacity ++ ") puede ser insuficiente",
        ["Identificar espacios adicionales", "Coordinar con instituciones", "Preparar suministros"]⟩ : RecItem)]
    else []
  let trends ← analyze_trends_simple now alerts
  let prepItems :=
    if trends.increasing then
      [(⟨"preparation", "Prepararse para aumento de demanda",
        "Tendencia creciente en número de alertas",
        ["Revisar planes de contingencia", "Verificar inventario de suministros", "Coordinar con voluntarios"]⟩ : RecItem)]
    else []
  pure ⟨capItems ++ prepItems, "MEDIUM", "4h"⟩

/-- Citizen generator of `mcp/app/recommendation_engine.py`: items on
nearby alerts (radius 0.01) and nearby shelters (radius 0.02), with an
explicit `Situación normal` fallback when nothing applies. -/
def generate_citizen_recommendations (alerts : List Alert)
    (shelters : List Shelter) (location : Option Location) :
    RecommendationResponse :=
  let nearby := get_nearby_alerts alerts location (1 / 100)
  let nearbyShelters := get_nearby_shelters shelters location (1 / 50)
  let recs :=
    (if nearby.isEmpty then [] else
      (if nearby.any (fun a => decide (3 ≤ a.severity)) then
        [⟨"safety", "¡Alerta de seguridad!",
          "Alertas de alta severidad en tu área. Tome precauciones.",
          ["Manténgase informado", "Siga instrucciones oficiales", "Prepare kit de emergencia"]⟩]
       else []) ++
      [⟨"information", "Alertas en tu área",
        toString nearby.length ++ " alertas reportadas cerca de tu ubicación",
        ["Monitorear actualizaciones", "Identificar rutas seguras", "Conocer refugios cercanos"]⟩]) ++
    (if nearbyShelters.isEmpty then [] else
      [⟨"preparation", "Refugios disponibles",
        toString nearbyShelters.length ++ " refugios identificados en tu área",
        ["Conocer ubicaciones", "Guardar contactos", "Preparar ruta de evacuación"]⟩])
  let recs :=
    if recs.isEmpty then
      [⟨"general", "Situación normal",
        "No hay alertas críticas en tu área inmediata",
        ["Mantener preparación básica", "Conocer números de emergencia", "Seguir fuentes oficiales"]⟩]
    else recs
  ⟨recs, "LOW", "6h"⟩

/-- General/unrecognized-role generator of
`mcp/app/recommendation_engine.py`: a single monitoring item. -/
def generate_general_recommendations (alerts : List Alert) :
    RecommendationResponse :=
  ⟨[⟨"general", "Monitoreo del sistema",
     "Sistema activo con " ++ toString alerts.length ++ " alertas registradas",
     ["Revisar dashboard regularmente", "Reportar situaciones anómalas", "Mantener actualizado el perfil"]⟩],
   "LOW", "12h"⟩

/-- Persisted backend alert record; the fields the dedup claims read
(`id`, `created_at`, `alert_type`/`source` tags are irrelevant here). -/
structure BackendAlert where
  title : String
  description : String
  lat : ℚ
  lon : ℚ
  severity : ℤ
deriving DecidableEq, Repr

/-- Request body of `POST /alerts` (`AlertCreate`). -/
structure AlertCreate where
  title : String
  description : String
  lat : ℚ
  lon : ℚ
  severity : ℤ
deriving DecidableEq, Repr

/-- Number of persisted records carrying a given title. -/
def count_title (store : List BackendAlert) (t : String) : ℕ :=
  (store.filter (fun a => a.title == t)).length

/-- `create_alert` endpoint of `backend/app/main.py`: reject falsy required
fields with HTTP 400 (`not title`, `not lat`, `not lon` — note `0` is
falsy), otherwise persist unconditionally; no title-existence check. -/
def create_alert (store : List BackendAlert) (d : AlertCreate) :
    Except ℕ (List BackendAlert) :=
  if d.title = "" ∨ d.lat = 0 ∨ d.lon = 0 then Except.error 400
  else Except.ok (store ++ [⟨d.title, d.description, d.lat, d.lon, d.severity⟩])

/-- Candidate alert parsed from the Google alerts feed
(`coordinates.lat` / `coordinates.lng`, severity defaulting to 2). -/
structure GoogleCand where
  title : String
  description : String
  severity : ℤ
  lat : ℚ
  lon : ℚ
deriving DecidableEq, Repr

/-- Ingestion loop of `fetch_google_alerts` (`backend/app/google_fetcher.py`):
for each candidate, look the title up in the store and insert only when no
record shares that title. -/
def ingest_google (store : List BackendAlert) (cands : List GoogleCand) :
    List BackendAlert :=
  cands.foldl
    (fun st c =>
      if st.any (fun a => a.title == c.title) then st
      else st ++ [⟨c.title, c.description, c.lat, c.lon, c.severity⟩])
    store

/-- `fetch_google_alerts` itself: the HTTP request and JSON parse run with
no exception handler, so a provider failure propagates to the caller;
on success the candidates are ingested with title dedup. -/
def fetch_google_alerts (resp : Except String (List GoogleCand))
    (store : List BackendAlert) : Except String (List BackendAlert) :=
  match resp with
  | Except.error e => Except.error e
  | Except.ok cands => Except.ok (ingest_google store cands)

/-- Body of `fetch_open_meteo_data` (`backend/app/external_data.py`): the
whole provider interaction sits in `try/except`, so a failure is logged and
becomes `None`; otherwise the synthesized alert list is returned. -/
def fetch_open_meteo_data (resp : Except String (List RawAlert)) :
    Option (List RawAlert) :=
  match resp with
  | Except.ok alerts => some alerts
  | Except.error _ => none

/-- Body of `fetch_weather_alerts`: `None` when no OpenWeather API key is
configured, otherwise the guarded provider interaction. -/
def fetch_weather_alerts (key : Option String)
    (resp : Except String (List RawAlert)) : Option (List RawAlert) :=
  match key with
  | none => none
  | some _ =>
    match resp with
    | Except.ok alerts => some alerts
    | Except.error _ => none

/-- Body of `fetch_gdacs_alerts`: guarded by `try/except`. -/
def fetch_gdacs_alerts (resp : Except String (List RawAlert)) :
    Option (List RawAlert) :=
  match resp with
  | Except.ok alerts => some alerts
  | Except.error _ => none

/-- Body of `fetch_nasa_power_data`: guarded by `try/except`. -/
def fetch_nasa_power_data (resp : Except String (List RawAlert)) :
    Option (List RawAlert) :=
  match resp with
  | Except.ok alerts => some alerts
  | Except.error _ => none

/-- `check_all_sources` (`backend/app/external_data.py`): call each adapter
in turn and extend the aggregate with every non-`None`, nonempty result
(extending with `[]` when the adapter is skipped or failed — the source
skips the falsy empty list, which extends to the same aggregate); the
OpenWeather adapter is only invoked when a key is configured. -/
def check_all_sources (key : Option String)
    (meteo weather gdacs nasa : Except String (List RawAlert)) :
    List RawAlert :=
  (fetch_open_meteo_data meteo).getD [] ++
  (if key.isSome then (fetch_weather_alerts key weather).getD [] else []) ++
  (fetch_gdacs_alerts gdacs).getD [] ++
  (fetch_nasa_power_data nasa).getD []

/-! Helper lemmas. -/

theorem count_title_append (s₁ s₂ : List BackendAlert) (t : String) :
    count_title (s₁ ++ s₂) t = count_title s₁ t + count_title s₂ t := by
  simp [count_title, List.filter_append]

theorem count_title_eq_zero_of_not_any (s : List BackendAlert) (t : String)
    (h : s.any (fun a => a.title == t) = false) : count_title s t = 0 := by
  simp only [List.any_eq_false] at h
  simp only [count_title, List.length_eq_zero, List.filter_eq_nil_iff]
  exact h

theorem ingest_google_step_bound (store : List BackendAlert) (c : GoogleCand)
    (t : String) (h : count_title store t ≤ 1) :
    count_title
      (if store.any (fun a => a.title == c.title) then store
       else store ++ [⟨c.title, c.description, c.lat, c.lon, c.severity⟩]) t ≤ 1 := by
  by_cases hany : store.any (fun a => a.title == c.title)
  · simpa [hany] using h
  · have hany' : store.any (fun a => a.title == c.title) = false := by
      simpa using hany
    rw [if_neg (by simp [hany'])]
    rw [count_title_append]
    by_cases ht : c.title = t
    · have h0 : count_title store t = 0 := by
        subst ht
        exact count_title_eq_zero_of_not_any store c.title hany'
      have h2 : count_title [(⟨c.title, c.description, c.lat, c.lon, c.severity⟩ : BackendAlert)] t ≤ 1 := by
        simpa [count_title] using
          List.length_filter_le (fun a : BackendAlert => a.title == t)
            [⟨c.title, c.description, c.lat, c.lon, c.severity⟩]
      omega
    · have h1 : count_title [(⟨c.title, c.description, c.lat, c.lon, c.severity⟩ : BackendAlert)] t = 0 := by
        simp [count_title, ht]
      omega

theorem ite_isEmpty_ne_nil {α : Type} (l : List α) (g : α) :
    (if l.isEmpty then [g] else l) ≠ [] := by
  by_cases h : l.isEmpty = true
  · simp [h]
  · have hne : l ≠ [] := by simpa [List.isEmpty_iff] using h
    simp [h, hne]

theorem risk_factors_advanced_length (nHigh nClusters nExternal : ℕ) (inc : Bool) :
    (risk_factors_advanced nHigh nClusters nExternal inc).length =
      (if 0 < nHigh then 1 else 0) + (if 0 < nClusters then 1 else 0) +
        (if 0 < nExternal then 1 else 0) + (if inc then 1 else 0) := by
  unfold risk_factors_advanced
  split_ifs <;> simp

theorem risk_level_of_score_mono {s₁ s₂ : ℚ} (h : s₁ ≤ s₂) :
    (risk_level_of_score s₁).rank ≤ (risk_level_of_score s₂).rank := by
  unfold risk_level_of_score
  split_ifs <;> simp [RiskLevel.rank] <;> linarith

theorem calculate_risk_level_mono {h₁ h₂ : ℕ} (r : ℕ) (h : h₁ ≤ h₂) :
    (calculate_risk_level h₁ r).rank ≤ (calculate_risk_level h₂ r).rank := by
  have hc : (h₁ : ℚ) ≤ h₂ := by exact_mod_cast h
  have hs : (h₁ : ℚ) * (3 / 5) + (r : ℚ) * (2 / 5) ≤
      (h₂ : ℚ) * (3 / 5) + (r : ℚ) * (2 / 5) := by nlinarith
  simp only [calculate_risk_level]
  split_ifs <;> simp [RiskLevel.rank] <;> linarith

/-! Claim theorems. -/

/-- C8: on the empty alert snapshot and empty external-alert input, both
risk-assessment endpoints return a non-error assessment with level LOW,
confidence exactly 0, and empty factor and recommendation lists. -/
theorem c8_empty_snapshot_low_risk :
    risk_assessment_main [] = ⟨RiskLevel.LOW, 0, [], []⟩ ∧
    risk_assessment_advanced [] [] = Except.ok ⟨RiskLevel.LOW, 0, [], []⟩ := by
  constructor <;>
    · simp [risk_assessment_main, risk_assessment_advanced, risk_factors_main,
        risk_factors_advanced, risk_recommendations_main, risk_recommendations_advanced,
        risk_score, risk_level_of_score, analyze_location_clusters, cluster_state,
        analyze_trends, analyze_trends_advanced, analyze_trends_window]
      norm_num

/-- C7 counterexample: the Google source adapter has no exception handler,
so a provider failure is propagated verbatim to the caller instead of
degrading to an empty contribution. -/
theorem c7_counterexample_google_failure_propagates :
    fetch_google_alerts (Except.error "proveedor inaccesible") [] =
      Except.error "proveedor inaccesible" := rfl

/-- C7 (amended): within `check_all_sources`, each of the four guarded
adapters degrades a failure to exactly the empty contribution — replacing
any single adapter's outcome by a failure yields the same aggregate as
replacing it by an empty success, leaving every other adapter's
contribution intact; the aggregate itself never errors. -/
theorem c7_adapter_isolation (key : Option String) (e : String)
    (meteo weather gdacs nasa : Except String (List RawAlert)) :
    check_all_sources key (Except.error e) weather gdacs nasa =
      check_all_sources key (Except.ok []) weather gdacs nasa ∧
    check_all_sources key meteo (Except.error e) gdacs nasa =
      check_all_sources key meteo (Except.ok []) gdacs nasa ∧
    check_all_sources key meteo weather (Except.error e) nasa =
      check_all_sources key meteo weather (Except.ok []) nasa ∧
    check_all_sources key meteo weather gdacs (Except.error e) =
      check_all_sources key meteo weather gdacs (Except.ok []) := by
  obtain _ | k := key <;>
    refine ⟨rfl, ?_, rfl, rfl⟩ <;>
      simp [check_all_sources, fetch_weather_alerts]

/-- C4 counterexample: on an empty snapshot the coordinator generators and
the civil-protection generator return an empty recommendations list — there
is no "situation normal"/"monitoring" fallback for these roles. -/
theorem c4_counterexample_empty_recommendations :
    (generate_coordinator_recommendations [] []).recommendations = [] ∧
    (generate_coordinator_recommendations_main []).recommendations = [] ∧
    generate_civil_protection_recommendations 0 [] [] =
      Except.ok ⟨[], "MEDIUM", "4h"⟩ := by
  refine ⟨rfl, rfl, ?_⟩
  simp [generate_civil_protection_recommendations, analyze_trends_simple]

/-- C4 (amended): the first-responder generators (both copies), the citizen
generator, and the general/unrecognized-role generator always return a
non-empty recommendations list, for every alert list, shelter list and
optional location; the coordinator and civil-protection generators lack the
fallback item (see the counterexample). -/
theorem c4_responder_citizen_general_nonempty (alerts : List Alert)
    (shelters : List Shelter) (location : Option Location) :
    (generate_responder_recommendations alerts location).recommendations ≠ [] ∧
    (generate_responder_recommendations_main alerts location).recommendations ≠ [] ∧
    (generate_citizen_recommendations alerts shelters location).recommendations ≠ [] ∧
    (generate_general_recommendations alerts).recommendations ≠ [] := by
  refine ⟨?_, ?_, ?_, by simp [generate_general_recommendations]⟩
  · simp [generate_responder_recommendations]
  · simp [generate_responder_recommendations_main]
  · exact ite_isEmpty_ne_nil _ _

/-- C1 counterexample: two `create_alert` submissions with the identical
title both persist — the `POST /alerts` path performs no title-existence
check, so the store ends with two records sharing one title. -/
theorem c1_counterexample_create_alert_duplicate :
    create_alert [] ⟨"Inundación", "", 1, 1, 3⟩ =
      Except.ok [⟨"Inundación", "", 1, 1, 3⟩] ∧
    create_alert [⟨"Inundación", "", 1, 1, 3⟩] ⟨"Inundación", "", 1, 1, 3⟩ =
      Except.ok [⟨"Inundación", "", 1, 1, 3⟩, ⟨"Inundación", "", 1, 1, 3⟩] ∧
    1 < count_title [⟨"Inundación", "", 1, 1, 3⟩, ⟨"Inundación", "", 1, 1, 3⟩]
        "Inundación" := by
  refine ⟨?_, ?_, ?_⟩
  · simp [create_alert]
  · simp [create_alert]
  · decide

/-- C1 (amended): the `fetch_google_alerts` ingestion loop preserves the
at-most-one-record-per-title invariant — starting from any store with at
most one record for a title, any batch of candidates (hence any sequence of
such batches) leaves at most one record for that title; `create_alert`
submissions, by contrast, persist unconditionally (see counterexample). -/
theorem c1_google_dedup_invariant (store : List BackendAlert)
    (cands : List GoogleCand) (t : String)
    (h : count_title store t ≤ 1) :
    count_title (ingest_google store cands) t ≤ 1 := by
  induction cands generalizing store with
  | nil => simpa [ingest_google] using h
  | cons c cs ih =>
    have hstep := ingest_google_step_bound store c t h
    have hrw : ingest_google store (c :: cs) =
        ingest_google
          (if store.any (fun a => a.title == c.title) then store
           else store ++ [⟨c.title, c.description, c.lat, c.lon, c.severity⟩]) cs := by
      simp only [ingest_google, List.foldl_cons]
    rw [hrw]
    exact ih _ hstep

theorem c1_google_dedup_invariant_witness :
    count_title [] "GDACS: Sismo" ≤ 1 ∧
    count_title
      (ingest_google []
        [⟨"GDACS: Sismo", "", 3, 1, 1⟩, ⟨"GDACS: Sismo", "", 3, 1, 1⟩])
      "GDACS: Sismo" ≤ 1 :=
  ⟨by decide, c1_google_dedup_invariant [] _ _ (by decide)⟩

theorem takeLast_sorted_dedup_short (w : ℕ) (l : List ℤ) (h : l.dedup.length < 2) :
    (takeLast w (List.insertionSort (· ≤ ·) l.dedup)).length < 2 := by
  have h1 : (List.insertionSort (· ≤ ·) l.dedup).length = l.dedup.length :=
    List.length_insertionSort _ _
  have h2 : (takeLast w (List.insertionSort (· ≤ ·) l.dedup)).length ≤
      (List.insertionSort (· ≤ ·) l.dedup).length := by
    simp only [takeLast, List.length_drop]
    omega
  omega

theorem analyze_trends_window_floor (w : ℕ) (alerts : List Alert)
    (hne : alerts ≠ [])
    (hdates : (parsedDates alerts).dedup.length < 2) :
    (analyze_trends_window w alerts).trend = "insufficient_data" := by
  have hE : alerts.isEmpty = false := by simpa [List.isEmpty_iff] using hne
  have hlen := takeLast_sorted_dedup_short w (parsedDates alerts) hdates
  simp [analyze_trends_window, hE, hlen]

theorem parsedDates_of_parseTimestamps (alerts : List Alert) (ts : List Timestamp)
    (h : parseTimestamps alerts = some ts) :
    parsedDates alerts = ts.map Timestamp.date := by
  induction alerts generalizing ts with
  | nil =>
    simp only [parseTimestamps, Option.some.injEq] at h
    subst h
    simp [parsedDates]
  | cons a t ih =>
    cases hc : a.created_at with
    | none => simp [parseTimestamps, hc] at h
    | some x =>
      cases hm : parseTimestamps t with
      | none => simp [parseTimestamps, hc, hm] at h
      | some xs =>
        simp only [parseTimestamps, hc, hm, Option.some.injEq] at h
        subst h
        have ht := ih xs hm
        simp only [parsedDates] at ht ⊢
        simp [List.filterMap_cons, hc, ht]

/-- C5 counterexample: the empty snapshot — which has zero distinct
creation dates — is classified `stable`, not `insufficient_data`, by both
daily trend analyzers. -/
theorem c5_counterexample_empty_snapshot_stable :
    analyze_trends [] = ⟨"stable", false⟩ ∧
    analyze_trends_advanced [] = Except.ok ⟨"stable", false⟩ ∧
    (analyze_trends []).trend ≠ "insufficient_data" := by
  refine ⟨rfl, rfl, by decide⟩

/-- C5 (amended): for every non-empty snapshot whose parseable creation
timestamps fall on fewer than 2 distinct UTC calendar dates, the `main.py`
daily trend analyzer — which skips unparseable timestamps — returns
`insufficient_data`; the `advanced_mcp.py` analyzer returns the same
whenever every timestamp parses (its date loop has no handler, so it
raises otherwise); the empty snapshot instead returns `stable` (see
counterexample). -/
theorem c5_trend_floor (alerts : List Alert)
    (hne : alerts ≠ [])
    (hdates : (parsedDates alerts).dedup.length < 2) :
    (analyze_trends alerts).trend = "insufficient_data" ∧
    ∀ ts : List Timestamp, parseTimestamps alerts = some ts →
      analyze_trends_advanced alerts = Except.ok ⟨"insufficient_data", false⟩ := by
  refine ⟨?_, ?_⟩
  · simpa [analyze_trends] using analyze_trends_window_floor 3 alerts hne hdates
  · intro ts hts
    have hE : alerts.isEmpty = false := by simpa [List.isEmpty_iff] using hne
    have hpd := parsedDates_of_parseTimestamps alerts ts hts
    have hd2 : (ts.map Timestamp.date).dedup.length < 2 := hpd ▸ hdates
    have hlen := takeLast_sorted_dedup_short 7 (ts.map Timestamp.date) hd2
    simp [analyze_trends_advanced, hE, hts, hlen]

theorem c5_trend_floor_witness :
    (([(⟨2, 0, 0, some ⟨0⟩⟩ : Alert)] ≠ []) ∧
      (parsedDates [⟨2, 0, 0, some ⟨0⟩⟩]).dedup.length < 2) ∧
    (analyze_trends [⟨2, 0, 0, some ⟨0⟩⟩]).trend = "insufficient_data" ∧
    analyze_trends_advanced [⟨2, 0, 0, some ⟨0⟩⟩] =
      Except.ok ⟨"insufficient_data", false⟩ :=
  ⟨⟨by simp, by simp [parsedDates]⟩,
   (c5_trend_floor [⟨2, 0, 0, some ⟨0⟩⟩] (by simp) (by simp [parsedDates])).1,
   (c5_trend_floor [⟨2, 0, 0, some ⟨0⟩⟩] (by simp) (by simp [parsedDates])).2
     [⟨0⟩] (by rfl)⟩

/-- C6: the composite risk level of the risk-assessment endpoints and the
dashboard risk level of `calculate_risk_level` are both monotone in the
count of severity-at-least-3 alerts, all other scorer inputs held fixed,
under the order LOW < MEDIUM < HIGH < CRITICAL. -/
theorem c6_risk_level_monotone (h₁ h₂ nClusters nExternal : ℕ) (inc : Bool)
    (nRecent : ℕ) (hle : h₁ ≤ h₂) :
    (risk_level_of_score
        (risk_score (risk_factors_advanced h₁ nClusters nExternal inc).length h₁)).rank ≤
      (risk_level_of_score
        (risk_score (risk_factors_advanced h₂ nClusters nExternal inc).length h₂)).rank ∧
    (calculate_risk_level h₁ nRecent).rank ≤ (calculate_risk_level h₂ nRecent).rank := by
  refine ⟨?_, calculate_risk_level_mono nRecent hle⟩
  apply risk_level_of_score_mono
  rw [risk_factors_advanced_length, risk_factors_advanced_length]
  unfold risk_score
  have hc : (h₁ : ℚ) ≤ h₂ := by exact_mod_cast hle
  have hind : ((if 0 < h₁ then 1 else 0) + (if 0 < nClusters then 1 else 0) +
      (if 0 < nExternal then 1 else 0) + (if inc then 1 else 0) : ℕ) ≤
      (if 0 < h₂ then 1 else 0) + (if 0 < nClusters then 1 else 0) +
        (if 0 < nExternal then 1 else 0) + (if inc then 1 else 0) := by
    have hi : (if 0 < h₁ then (1 : ℕ) else 0) ≤ (if 0 < h₂ then 1 else 0) := by
      split_ifs <;> omega
    omega
  have hcast : (((if 0 < h₁ then 1 else 0) + (if 0 < nClusters then 1 else 0) +
      (if 0 < nExternal then 1 else 0) + (if inc then 1 else 0) : ℕ) : ℚ) ≤
      (((if 0 < h₂ then 1 else 0) + (if 0 < nClusters then 1 else 0) +
        (if 0 < nExternal then 1 else 0) + (if inc then 1 else 0) : ℕ) : ℚ) := by
    exact_mod_cast hind
  linarith

theorem c6_risk_level_monotone_witness :
    (1 : ℕ) ≤ 4 ∧
    (risk_level_of_score
        (risk_score (risk_factors_advanced 1 0 0 false).length 1)).rank ≤
      (risk_level_of_score
        (risk_score (risk_factors_advanced 4 0 0 false).length 4)).rank ∧
    (calculate_risk_level 1 2).rank ≤ (calculate_risk_level 4 2).rank :=
  ⟨by decide, (c6_risk_level_monotone 1 4 0 0 false 2 (by decide)).1,
    (c6_risk_level_monotone 1 4 0 0 false 2 (by decide)).2⟩

theorem list_sq_sum_le (l : List ℚ) :
    l.sum ^ 2 ≤ (l.length : ℚ) * (l.map (fun x => x ^ 2)).sum := by
  have h1 : l.sum = ∑ i : Fin l.length, l.get i := by
    conv_lhs => rw [← List.ofFn_get l, List.sum_ofFn]
  have h2 : (l.map (fun x => x ^ 2)).sum = ∑ i : Fin l.length, l.get i ^ 2 := by
    conv_lhs => rw [← List.ofFn_get l, List.map_ofFn, List.sum_ofFn]
    simp [Function.comp]
  rw [h1, h2]
  have h3 : (∑ i : Fin l.length, l.get i) ^ 2 ≤
      (((Finset.univ : Finset (Fin l.length)).card : ℚ)) *
        ∑ i : Fin l.length, l.get i ^ 2 := sq_sum_le_card_mul_sum_sq
  simpa using h3

theorem sum_map_sub_length_mul (p : List Alert) (f : Alert → ℚ) (c : ℚ) :
    (p.map (fun q => f q - c)).sum = (p.map f).sum - (p.length : ℚ) * c := by
  induction p with
  | nil => simp
  | cons a t ih =>
    simp only [List.map_cons, List.sum_cons, ih, List.length_cons, Nat.cast_succ]
    ring

theorem sum_map_add_apply (p : List Alert) (f g : Alert → ℚ) :
    (p.map (fun q => f q + g q)).sum = (p.map f).sum + (p.map g).sum := by
  induction p with
  | nil => simp
  | cons a t ih =>
    simp only [List.map_cons, List.sum_cons, ih]
    ring

theorem sum_lt_length_mul (l : List ℚ) (r : ℚ) (hne : l ≠ []) (h : ∀ x ∈ l, x < r) :
    l.sum < (l.length : ℚ) * r := by
  induction l with
  | nil => simp at hne
  | cons a t ih =>
    rcases eq_or_ne t [] with rfl | hne'
    · simpa using h a (by simp)
    · have ha := h a (by simp)
      have ht := ih hne' (fun x hx => h x (by simp [hx]))
      simp only [List.sum_cons, List.length_cons, Nat.cast_succ]
      linarith

theorem centroid_close (p : List Alert) (x : ℚ × ℚ) (r2 : ℚ) (hne : p ≠ [])
    (h : ∀ q ∈ p, dist2 q.pos x < r2) :
    dist2 (centroid p) x < r2 := by
  have hn : 0 < p.length := List.length_pos.2 hne
  have hnQ : (0 : ℚ) < (p.length : ℚ) := by exact_mod_cast hn
  have hdx : (p.map (fun q => q.lat - x.1)).sum =
      (p.map Alert.lat).sum - (p.length : ℚ) * x.1 :=
    sum_map_sub_length_mul p Alert.lat x.1
  have hdy : (p.map (fun q => q.lon - x.2)).sum =
      (p.map Alert.lon).sum - (p.length : ℚ) * x.2 :=
    sum_map_sub_length_mul p Alert.lon x.2
  have e2 : dist2 (centroid p) x =
      ((p.map (fun q => q.lat - x.1)).sum ^ 2 +
        (p.map (fun q => q.lon - x.2)).sum ^ 2) / ((p.length : ℚ)) ^ 2 := by
    rw [dist2, centroid, hdx, hdy]
    field_simp
  have hb1 : (p.map (fun q => q.lat - x.1)).sum ^ 2 ≤
      (p.length : ℚ) * ((p.map (fun q => (q.lat - x.1) ^ 2)).sum) := by
    have := list_sq_sum_le (p.map (fun q => q.lat - x.1))
    simpa [List.map_map, Function.comp] using this
  have hb2 : (p.map (fun q => q.lon - x.2)).sum ^ 2 ≤
      (p.length : ℚ) * ((p.map (fun q => (q.lon - x.2) ^ 2)).sum) := by
    have := list_sq_sum_le (p.map (fun q => q.lon - x.2))
    simpa [List.map_map, Function.comp] using this
  have hsum : (p.map (fun q => (q.lat - x.1) ^ 2)).sum +
      (p.map (fun q => (q.lon - x.2) ^ 2)).sum =
      (p.map (fun q => dist2 q.pos x)).sum := by
    rw [← sum_map_add_apply]
    simp [dist2, Alert.pos]
  have hlt : (p.map (fun q => dist2 q.pos x)).sum < (p.length : ℚ) * r2 := by
    have := sum_lt_length_mul (p.map (fun q => dist2 q.pos x)) r2
      (by simpa using hne)
      (by
        intro v hv
        obtain ⟨q, hq, rfl⟩ := List.mem_map.1 hv
        exact h q hq)
    simpa using this
  rw [e2, div_lt_iff₀ (by positivity)]
  nlinarith [hb1, hb2, hsum, hlt, hnQ]

theorem cluster_state_all_close (l : List Alert) (hne : l ≠ [])
    (hc : ∀ a ∈ l, ∀ b ∈ l, dist2 a.pos b.pos < radius2) :
    cluster_state l = [⟨centroid l, l⟩] := by
  induction l using List.reverseRecOn with
  | nil => simp at hne
  | append_singleton t a ih =>
    rcases eq_or_ne t [] with rfl | hne'
    · simp [cluster_state, insertAlert, centroid, Alert.pos]
    · have ihc : ∀ x ∈ t, ∀ y ∈ t, dist2 x.pos y.pos < radius2 := fun x hx y hy =>
        hc x (by simp [hx]) y (by simp [hy])
      have ht := ih hne' ihc
      have hstep : cluster_state (t ++ [a]) = insertAlert a (cluster_state t) := by
        simp [cluster_state, List.foldl_append]
      have hclose : dist2 (centroid t) a.pos < radius2 :=
        centroid_close t a.pos radius2 hne'
          (fun q hq => hc q (by simp [hq]) a (by simp))
      rw [hstep, ht]
      simp [insertAlert, hclose]

/-- C2: when every pair of alerts lies strictly within the clustering
radius, the centroid-updating clustering returns exactly one cluster, whose
members are all the input alerts (in input order) and whose center is their
mean; with at least two alerts it survives the concentration filter. -/
theorem c2_clustering_containment (alerts : List Alert)
    (h2 : 2 ≤ alerts.length)
    (hc : ∀ a ∈ alerts, ∀ b ∈ alerts, dist2 a.pos b.pos < radius2) :
    analyze_location_clusters alerts = [⟨centroid alerts, alerts⟩] := by
  have hne : alerts ≠ [] := by
    intro h
    rw [h] at h2
    simp at h2
  have h1 : 1 < alerts.length := by omega
  rw [analyze_location_clusters, cluster_state_all_close alerts hne hc]
  simp [h1]

theorem c2_clustering_containment_witness :
    (2 ≤ ([⟨4, 0, 0, none⟩, ⟨3, 0, 0, none⟩] : List Alert).length ∧
      ∀ a ∈ ([⟨4, 0, 0, none⟩, ⟨3, 0, 0, none⟩] : List Alert),
        ∀ b ∈ ([⟨4, 0, 0, none⟩, ⟨3, 0, 0, none⟩] : List Alert),
          dist2 a.pos b.pos < radius2) ∧
    analyze_location_clusters [⟨4, 0, 0, none⟩, ⟨3, 0, 0, none⟩] =
      [⟨centroid [⟨4, 0, 0, none⟩, ⟨3, 0, 0, none⟩],
        [⟨4, 0, 0, none⟩, ⟨3, 0, 0, none⟩]⟩] :=
  ⟨⟨by simp,
    by
      intro a ha b hb
      fin_cases ha <;> fin_cases hb <;> norm_num [dist2, Alert.pos, radius2]⟩,
    c2_clustering_containment _ (by simp)
      (by
        intro a ha b hb
        fin_cases ha <;> fin_cases hb <;> norm_num [dist2, Alert.pos, radius2])⟩

theorem insertAlert_centers (a : Alert) (cs : List Cluster)
    (h : ∀ c ∈ cs, c.center = centroid c.alerts) :
    ∀ c ∈ insertAlert a cs, c.center = centroid c.alerts := by
  induction cs with
  | nil =>
    intro c hc
    simp only [insertAlert, List.mem_singleton] at hc
    subst hc
    simp [centroid, Alert.pos]
  | cons c0 rest ih =>
    intro c hc
    by_cases hd : dist2 c0.center a.pos < radius2
    · simp only [insertAlert, if_pos hd, List.mem_cons] at hc
      rcases hc with rfl | hc
      · rfl
      · exact h c (by simp [hc])
    · simp only [insertAlert, if_neg hd, List.mem_cons] at hc
      rcases hc with rfl | hc
      · exact h c (by simp)
      · exact ih (fun x hx => h x (by simp [hx])) c hc

theorem cluster_state_centers (alerts : List Alert) :
    ∀ c ∈ cluster_state alerts, c.center = centroid c.alerts := by
  suffices h : ∀ s : List Cluster, (∀ c ∈ s, c.center = centroid c.alerts) →
      ∀ c ∈ alerts.foldl (fun cs a => insertAlert a cs) s,
        c.center = centroid c.alerts by
    exact h [] (by simp)
  induction alerts with
  | nil =>
    intro s hs
    simpa using hs
  | cons a t ih =>
    intro s hs
    simp only [List.foldl_cons]
    exact ih _ (insertAlert_centers a s hs)

/-- C3 counterexample: the simplified clustering of
`recommendation_engine.py` never recomputes the center, so a returned
cluster keeps the first member's coordinates as its center even though the
mean of its two members differs. -/
theorem c3_counterexample_simple_center_not_mean :
    analyze_location_clusters_simple [⟨3, 0, 0, none⟩, ⟨1, 1/200, 0, none⟩] =
      [⟨(0, 0), [⟨3, 0, 0, none⟩, ⟨1, 1/200, 0, none⟩]⟩] ∧
    centroid [⟨3, 0, 0, none⟩, ⟨1, 1/200, 0, none⟩] ≠ ((0 : ℚ), (0 : ℚ)) := by
  constructor
  · simp only [analyze_location_clusters_simple, cluster_state_simple,
      List.foldl_cons, List.foldl_nil, insertAlertSimple]
    norm_num [dist2, Alert.pos, radius2]
  · norm_num [centroid, Prod.ext_iff]

/-- C3 (amended): every cluster returned by the centroid-updating
clustering (`main.py`, `advanced_mcp.py`, `decision_support.py`) has its
center equal to the arithmetic mean of its members, recomputed on every
assignment; the simplified copy in `recommendation_engine.py` instead
leaves the center at the first member's coordinates (see counterexample). -/
theorem c3_centroid_is_mean (alerts : List Alert) (c : Cluster)
    (hc : c ∈ analyze_location_clusters alerts) :
    c.center = centroid c.alerts :=
  cluster_state_centers alerts c (List.mem_of_mem_filter hc)

theorem c3_centroid_is_mean_witness :
    ((⟨(1/400, 0), [⟨3, 0, 0, none⟩, ⟨1, 1/200, 0, none⟩]⟩ : Cluster) ∈
      analyze_location_clusters [⟨3, 0, 0, none⟩, ⟨1, 1/200, 0, none⟩]) ∧
    (⟨(1/400, 0), [⟨3, 0, 0, none⟩, ⟨1, 1/200, 0, none⟩]⟩ : Cluster).center =
      centroid (⟨(1/400, 0), [⟨3, 0, 0, none⟩, ⟨1, 1/200, 0, none⟩]⟩ : Cluster).alerts :=
  ⟨by
    simp only [analyze_location_clusters, cluster_state, List.foldl_cons,
      List.foldl_nil, insertAlert]
    norm_num [dist2, Alert.pos, radius2, centroid],
   c3_centroid_is_mean [⟨3, 0, 0, none⟩, ⟨1, 1/200, 0, none⟩]
    ⟨(1/400, 0), [⟨3, 0, 0, none⟩, ⟨1, 1/200, 0, none⟩]⟩
    (by
      simp only [analyze_location_clusters, cluster_state, List.foldl_cons,
        List.foldl_nil, insertAlert]
      norm_num [dist2, Alert.pos, radius2, centroid])⟩

theorem flatten_insertAlert (a : Alert) (cs : List Cluster) :
    List.Perm ((insertAlert a cs).map Cluster.alerts).flatten
      ((cs.map Cluster.alerts).flatten ++ [a]) := by
  induction cs with
  | nil => simp [insertAlert]
  | cons c rest ih =>
    by_cases hd : dist2 c.center a.pos < radius2
    · simp only [insertAlert, if_pos hd, List.map_cons, List.flatten_cons]
      rw [List.append_assoc, List.append_assoc]
      exact List.Perm.append_left c.alerts List.perm_append_comm
    · simp only [insertAlert, if_neg hd, List.map_cons, List.flatten_cons]
      have h1 := ih.append_left c.alerts
      rw [← List.append_assoc] at h1
      exact h1

theorem cluster_state_flatten_perm_aux (l : List Alert) (s : List Cluster) :
    List.Perm ((l.foldl (fun cs a => insertAlert a cs) s).map Cluster.alerts).flatten
      ((s.map Cluster.alerts).flatten ++ l) := by
  induction l generalizing s with
  | nil => simp
  | cons a t ih =>
    simp only [List.foldl_cons]
    refine (ih (insertAlert a s)).trans ?_
    refine ((flatten_insertAlert a s).append_right t).trans ?_
    rw [List.append_assoc]
    simp

theorem flatten_sublist_of_sublist {α : Type} {L₁ L₂ : List (List α)}
    (h : List.Sublist L₁ L₂) : List.Sublist L₁.flatten L₂.flatten := by
  induction h with
  | slnil => simp
  | cons l _ ih =>
    simp only [List.flatten_cons]
    exact ih.trans (List.sublist_append_right l _)
  | cons₂ l _ ih =>
    simp only [List.flatten_cons]
    exact ih.append_left l

theorem flatten_insertAlertSimple (a : Alert) (cs : List Cluster) :
    List.Perm ((insertAlertSimple a cs).map Cluster.alerts).flatten
      ((cs.map Cluster.alerts).flatten ++ [a]) := by
  induction cs with
  | nil => simp [insertAlertSimple]
  | cons c rest ih =>
    by_cases hd : dist2 c.center a.pos < radius2
    · simp only [insertAlertSimple, if_pos hd, List.map_cons, List.flatten_cons]
      rw [List.append_assoc, List.append_assoc]
      exact List.Perm.append_left c.alerts List.perm_append_comm
    · simp only [insertAlertSimple, if_neg hd, List.map_cons, List.flatten_cons]
      have h1 := ih.append_left c.alerts
      rw [← List.append_assoc] at h1
      exact h1

theorem cluster_state_simple_flatten_perm_aux (l : List Alert) (s : List Cluster) :
    List.Perm ((l.foldl (fun cs a => insertAlertSimple a cs) s).map Cluster.alerts).flatten
      ((s.map Cluster.alerts).flatten ++ l) := by
  induction l generalizing s with
  | nil => simp
  | cons a t ih =>
    simp only [List.foldl_cons]
    refine (ih (insertAlertSimple a s)).trans ?_
    refine ((flatten_insertAlertSimple a s).append_right t).trans ?_
    rw [List.append_assoc]
    simp

/-- C10: each single clustering pass — the centroid-updating one of
`main.py`/`advanced_mcp.py`/`decision_support.py` and the simplified one of
`recommendation_engine.py` — assigns every input alert to exactly one
internal cluster: the concatenation of the internal member lists is a
permutation of the input snapshot (so the member lists are pairwise
disjoint occurrences covering the input, and their total length is the
input length), and the returned concentration clusters form a
sub-permutation of the input. -/
theorem c10_cluster_partition (alerts : List Alert) :
    (List.Perm ((cluster_state alerts).map Cluster.alerts).flatten alerts ∧
      ((cluster_state alerts).map Cluster.alerts).flatten.length = alerts.length ∧
      List.Subperm ((analyze_location_clusters alerts).map Cluster.alerts).flatten alerts) ∧
    (List.Perm ((cluster_state_simple alerts).map Cluster.alerts).flatten alerts ∧
      ((cluster_state_simple alerts).map Cluster.alerts).flatten.length = alerts.length ∧
      List.Subperm ((analyze_location_clusters_simple alerts).map Cluster.alerts).flatten
        alerts) := by
  constructor
  · have hperm : List.Perm ((cluster_state alerts).map Cluster.alerts).flatten alerts := by
      have := cluster_state_flatten_perm_aux alerts []
      simpa [cluster_state] using this
    refine ⟨hperm, hperm.length_eq, ?_⟩
    have hsub : List.Sublist (analyze_location_clusters alerts) (cluster_state alerts) :=
      List.filter_sublist _
    have hsub2 : List.Sublist
        ((analyze_location_clusters alerts).map Cluster.alerts).flatten
        ((cluster_state alerts).map Cluster.alerts).flatten :=
      flatten_sublist_of_sublist (hsub.map Cluster.alerts)
    exact hsub2.subperm.trans hperm.subperm
  · have hperm : List.Perm ((cluster_state_simple alerts).map Cluster.alerts).flatten alerts := by
      have := cluster_state_simple_flatten_perm_aux alerts []
      simpa [cluster_state_simple] using this
    refine ⟨hperm, hperm.length_eq, ?_⟩
    have hsub : List.Sublist (analyze_location_clusters_simple alerts)
        (cluster_state_simple alerts) := List.filter_sublist _
    have hsub2 : List.Sublist
        ((analyze_location_clusters_simple alerts).map Cluster.alerts).flatten
        ((cluster_state_simple alerts).map Cluster.alerts).flatten :=
      flatten_sublist_of_sublist (hsub.map Cluster.alerts)
    exact hsub2.subperm.trans hperm.subperm

/-- C9 (amended): in the `recommendation_engine.py` first-responder
variant, the nearby filter keeps exactly the alerts within 0.02° of the
requester location (none when no location is given), and an
`immediate_action` item together with overall priority HIGH is emitted if
and only if some alert in that filtered set has severity at least 3; the
`main.py` copy instead filters with the default 0.01° radius (see
counterexample). -/
theorem c9_responder_immediate_iff (alerts : List Alert) (location : Option Location) :
    (∀ a : Alert, a ∈ get_nearby_alerts alerts location (1/50) ↔
      ∃ loc, location = some loc ∧ a ∈ alerts ∧
        dist2 a.pos (loc.lat, loc.lon) ≤ (1/50) ^ 2) ∧
    ((generate_responder_recommendations alerts location).priority = "HIGH" ↔
      ∃ a ∈ get_nearby_alerts alerts location (1/50), 3 ≤ a.severity) ∧
    ((∃ r ∈ (generate_responder_recommendations alerts location).recommendations,
        r.rtype = "immediate_action") ↔
      ∃ a ∈ get_nearby_alerts alerts location (1/50), 3 ≤ a.severity) := by
  simp only [generate_responder_recommendations]
  set N := get_nearby_alerts alerts location (1/50) with hN
  have hkey : (N.filter (fun a => decide (3 ≤ a.severity)) ≠ []) ↔
      ∃ a ∈ N, 3 ≤ a.severity := by
    rw [Ne, List.filter_eq_nil_iff]
    push_neg
    simp
  refine ⟨?_, ?_, ?_⟩
  · intro a
    rw [hN]
    cases location with
    | none => simp [get_nearby_alerts]
    | some loc => simp [get_nearby_alerts, List.mem_filter]
  · by_cases hh : N.filter (fun a => decide (3 ≤ a.severity)) = []
    · have hno : ¬∃ a ∈ N, 3 ≤ a.severity := fun hex => hkey.2 hex hh
      simp [List.isEmpty_iff, hh, hno]
    · have hyes : ∃ a ∈ N, 3 ≤ a.severity := hkey.1 hh
      simp [List.isEmpty_iff, hh, hyes]
  · by_cases hh : N.filter (fun a => decide (3 ≤ a.severity)) = []
    · have hno : ¬∃ a ∈ N, 3 ≤ a.severity := fun hex => hkey.2 hex hh
      by_cases hn : N = [] <;> simp [List.isEmpty_iff, hh, hn, hno]
    · have hyes : ∃ a ∈ N, 3 ≤ a.severity := hkey.1 hh
      simp [List.isEmpty_iff, hh, hyes]

/-- C9 counterexample: an alert of severity 3 lying 0.015° from the
requester (strictly within 0.02°) produces, through the `main.py`
first-responder variant, no `immediate_action` item and priority MEDIUM —
because that copy filters with the default 0.01° radius. -/
theorem c9_counterexample_main_uses_001_radius :
    dist2 (Alert.pos ⟨3, 3/200, 0, none⟩) ((0 : ℚ), (0 : ℚ)) ≤ (1/50) ^ 2 ∧
    generate_responder_recommendations_main [⟨3, 3/200, 0, none⟩] (some ⟨0, 0⟩) =
      ⟨[⟨"preparedness", "Mantenerse preparado",
         "Equipo listo para respuesta inmediata",
         ["Verificar equipamiento", "Monitorear comunicaciones", "Coordinar con base"]⟩],
       "MEDIUM", "1h"⟩ := by
  constructor
  · norm_num [dist2, Alert.pos]
  · simp only [generate_responder_recommendations_main, get_nearby_alerts]
    norm_num [dist2, Alert.pos]
